import Mathlib

/-!
Verification development for the dnspulse_exporter DNS probing core.

The Go source is embedded shallowly:
  * pure helpers (wire packing of a single-question DNS message, base32
    encoding, configuration defaulting, resolver construction) become Lean
    functions translated from the corresponding Go functions;
  * network and timing effects (the DNS exchange, HTTP round trips, the
    QUIC stream, `crypto/rand.Read`, the monotonic clock) are inputs: each
    `Query` model takes an oracle record describing the outcome of every
    external call it makes, and returns the `QueryResult` the Go code
    would build from those outcomes;
  * the probe cycle (`Prober.Run`) becomes a function producing the list
    of observable events (metric reports and 500 ms sleeps) of one cycle,
    with the context modelled as the boolean each `ctx.Done()` check
    observes.

Durations are integers (nanoseconds); `time.Since` is modelled as the
difference of two reads of a clock `Nat → Int`, with Go's monotonic-clock
guarantee rendered as a monotonicity hypothesis where needed.
-/

namespace DnsPulse

/-! ## DNS wire form of a single-question message (miekg/dns `Msg.Pack`
after `Msg.SetQuestion`) -/

/-- Bytes of a 16-bit big-endian value, as Go `byte(n >> 8), byte(n)`. -/
def encodeU16 (n : Nat) : List Nat := [n / 256 % 256, n % 256]

/-- Model of `dns.Fqdn`: append a trailing dot when absent. -/
def dnsFqdn (s : String) : String :=
  if s.toList.getLast? = some (Char.ofNat 46) then s else s ++ "."

/-- Split a character list on dots, like Go `strings.Split` on the name.
A trailing dot yields a trailing empty piece. -/
def splitDot : List Char → List (List Char)
  | [] => [[]]
  | c :: cs =>
    if c = Char.ofNat 46 then [] :: splitDot cs
    else
      match splitDot cs with
      | [] => [[c]]
      | l :: ls => (c :: l) :: ls

/-- Labels of a fully-qualified name: the dot-separated pieces with the
empty trailing piece (from the final dot) removed. -/
def nameLabels (s : String) : List (List Char) :=
  (splitDot s.toList).dropLast

/-- Encode a label list in RFC 1035 name form: each label length-prefixed,
then a zero terminator.  Mirrors miekg/dns `packDomainName` failures for
empty labels (consecutive dots) and labels longer than 63 octets. -/
def packLabels : List (List Char) → Option (List Nat)
  | [] => some [0]
  | l :: ls =>
    if l.length = 0 ∨ 63 < l.length then none
    else
      match packLabels ls with
      | none => none
      | some rest => some ((l.length :: l.map Char.toNat) ++ rest)

/-- Pack a domain name, failing when the encoded form exceeds the 255-octet
name limit enforced by miekg/dns. -/
def packName (s : String) : Option (List Nat) :=
  match packLabels (nameLabels s) with
  | none => none
  | some bs => if 255 < bs.length then none else some bs

/-- A DNS message as built by `Msg.SetQuestion`: one question, recursion
desired, a 16-bit id. -/
structure DnsQuestion where
  id : Nat
  qname : String
  qtype : Nat
  deriving Repr, DecidableEq

/-- Model of `msg.SetQuestion(dns.Fqdn(hostname), qtype)`: `SetQuestion`
assigns a fresh random 16-bit id (the `randId` oracle), the fqdn of the
hostname, and the record type. -/
def setQuestion (randId : Nat) (hostname : String) (qtype : Nat) : DnsQuestion :=
  { id := randId % 65536, qname := dnsFqdn hostname, qtype := qtype % 65536 }

/-- Model of `Msg.Pack` for a single-question message: 12-byte header
(id, flags RD = 0x0100, qdcount 1, zero counts) then the question
(name, type, class IN). -/
def packMsg (m : DnsQuestion) : Option (List Nat) :=
  match packName m.qname with
  | none => none
  | some nm =>
    some (encodeU16 m.id ++ [1, 0] ++ [0, 1] ++ [0, 0] ++ [0, 0] ++ [0, 0]
      ++ nm ++ encodeU16 m.qtype ++ [0, 1])

/-! ## Base32 (Go `encoding/base32` StdEncoding, no padding) and the
randomized label generator `generateRandomPrefix` of the prober. -/

/-- The standard base-32 alphabet used by Go `base32.StdEncoding`. -/
def base32Alphabet : List Char := "ABCDEFGHIJKLMNOPQRSTUVWXYZ234567".toList

/-- Big-endian value of a byte list (each byte reduced mod 256 as in Go). -/
def bytesToNum (bs : List Nat) : Nat :=
  bs.foldl (fun a b => a * 256 + b % 256) 0

/-- The `d` big-endian base-32 digits of `v`. -/
def digitsBE (v : Nat) : Nat → List Nat
  | 0 => []
  | d + 1 => v / 32 ^ d % 32 :: digitsBE v d

/-- Encode one group of at most five bytes: its `8k` bits, left-aligned and
zero-padded on the right to a whole number of 5-bit digits — exactly the
digit stream Go `base32.Encode` produces for a (possibly final) group. -/
def encGroup (bs : List Nat) : List Nat :=
  let k := bs.length
  let d := (8 * k + 4) / 5
  digitsBE (bytesToNum bs * 2 ^ (5 * d - 8 * k)) d

/-- Base-32 digit indices of a byte list, by groups of five bytes. -/
def encBytes : List Nat → List Nat
  | [] => []
  | b0 :: b1 :: b2 :: b3 :: b4 :: rest => encGroup [b0, b1, b2, b3, b4] ++ encBytes rest
  | bs => encGroup bs

/-- Go `base32.StdEncoding.WithPadding(base32.NoPadding).EncodeToString`. -/
def base32NoPadEncode (bs : List Nat) : String :=
  String.mk ((encBytes bs).map fun i => base32Alphabet.getD i (Char.ofNat 65))

/-- Model of the prober's `generateRandomPrefix`: `rand.Read` is the
`randRead` oracle (on success it yields the requested number of random
bytes).  On a read error the Go function logs a warning and returns the
fixed string "random" instead of aborting. -/
def generateRandomPrefix (length : Nat) (randRead : Except String (List Nat)) : String :=
  match randRead with
  | .error _ => "random"
  | .ok b => base32NoPadEncode (b.take length)

/-! ## Configuration (internal/config): server bindings, protocol tags,
defaulting and validation. -/

/-- TLS-specific configuration for encrypted protocols. -/
structure TLSConfig where
  serverName : String
  insecureSkipVerify : Bool
  deriving Repr, DecidableEq

/-- A single DNS server configuration. -/
structure DNSServer where
  address : String
  port : String
  protocol : String
  tls : Option TLSConfig
  deriving Repr, DecidableEq

/-- A domain to probe.  `probes` is a Go `int`. -/
structure Domain where
  name : String
  probes : Int
  deriving Repr, DecidableEq

/-- The YAML configuration (fields relevant to the probing core). -/
structure Config where
  domains : List Domain
  dnsServers : List DNSServer
  verboseLogging : Bool
  timeout : Int
  deriving Repr, DecidableEq

/-- The list behind the `ValidProtocols` set. -/
def validProtocolList : List String :=
  ["do53-udp", "do53-tcp", "dot", "doh", "doh3", "doq"]

/-- Membership in `ValidProtocols`. -/
def validProtocol (p : String) : Bool := validProtocolList.contains p

/-- Go `IsEncryptedProtocol`. -/
def isEncryptedProtocol (p : String) : Bool :=
  p = "dot" ∨ p = "doh" ∨ p = "doh3" ∨ p = "doq"

/-- Go `defaultPortForProtocol`. -/
def defaultPortForProtocol (protocol : String) : String :=
  if protocol = "do53-udp" ∨ protocol = "do53-tcp" then "53"
  else if protocol = "dot" ∨ protocol = "doq" then "853"
  else if protocol = "doh" ∨ protocol = "doh3" then "443"
  else "53"

/-- The per-server body of `Config.applyDefaults`: an empty protocol tag
becomes do53-udp, then an empty port becomes the (already defaulted)
protocol's standard port. -/
def applyDefaultsServer (s : DNSServer) : DNSServer :=
  let p := if s.protocol = "" then "do53-udp" else s.protocol
  let port := if s.port = "" then defaultPortForProtocol p else s.port
  { s with protocol := p, port := port }

/-- The per-server body of `Config.validate`: reject invalid protocols;
for encrypted protocols fill a missing TLS block or TLS server name with
the server address. -/
def validateServer (s : DNSServer) : Except String DNSServer :=
  if ¬ validProtocol s.protocol then
    .error ("invalid protocol " ++ s.protocol ++ " for server " ++ s.address)
  else if isEncryptedProtocol s.protocol then
    match s.tls with
    | none => .ok { s with tls := some ⟨s.address, false⟩ }
    | some t =>
      if t.serverName = "" then .ok { s with tls := some { t with serverName := s.address } }
      else .ok s
  else .ok s

/-! ## Resolver construction (internal/resolver): the six variant states
as built by their constructors, and the factory `NewResolver`. -/

/-- State of a Do53 resolver as laid down by `NewDo53Resolver`: `net` and
`protocol` are precomputed from `useTCP`. -/
structure Do53R where
  address : String
  port : String
  useTCP : Bool
  timeout : Int
  net : String
  protocol : String
  deriving Repr, DecidableEq

/-- Go `NewDo53Resolver`. -/
def newDo53Resolver (address port : String) (useTCP : Bool) (timeout : Int) : Do53R :=
  let protocol := if useTCP then "do53-tcp" else "do53-udp"
  let net := if useTCP then "tcp" else "udp"
  { address := address, port := port, useTCP := useTCP, timeout := timeout,
    net := net, protocol := protocol }

/-- State of a DoT resolver (`NewDoTResolver`): the TLS server name and
verification policy are stored at construction. -/
structure DoTR where
  address : String
  port : String
  timeout : Int
  tlsServerName : String
  tlsInsecure : Bool
  deriving Repr, DecidableEq

/-- Go `NewDoTResolver`. -/
def newDoTResolver (address port serverName : String) (insecureSkipVerify : Bool)
    (timeout : Int) : DoTR :=
  { address := address, port := port, timeout := timeout,
    tlsServerName := serverName, tlsInsecure := insecureSkipVerify }

/-- State of a DoH resolver (`NewDoHResolver`): url, Host header value and
TLS parameters are bound at construction. -/
structure DoHR where
  url : String
  host : String
  timeout : Int
  tlsServerName : String
  tlsInsecure : Bool
  deriving Repr, DecidableEq

/-- Go `NewDoHResolver` (the HTTP/2 transport callbacks are effects and
are not part of the stored pure state). -/
def newDoHResolver (address port serverName : String) (insecureSkipVerify : Bool)
    (timeout : Int) : DoHR :=
  { url := "https://" ++ address ++ ":" ++ port ++ "/dns-query",
    host := serverName, timeout := timeout,
    tlsServerName := serverName, tlsInsecure := insecureSkipVerify }

/-- State of a DoH3 resolver (`NewDoH3Resolver`). -/
structure DoH3R where
  url : String
  host : String
  timeout : Int
  tlsServerName : String
  tlsInsecure : Bool
  deriving Repr, DecidableEq

/-- Go `NewDoH3Resolver`. -/
def newDoH3Resolver (address port serverName : String) (insecureSkipVerify : Bool)
    (timeout : Int) : DoH3R :=
  { url := "https://" ++ address ++ ":" ++ port ++ "/dns-query",
    host := serverName, timeout := timeout,
    tlsServerName := serverName, tlsInsecure := insecureSkipVerify }

/-- State of a DoQ resolver (`NewDoQResolver`). -/
structure DoQR where
  address : String
  port : String
  timeout : Int
  tlsServerName : String
  tlsInsecure : Bool
  deriving Repr, DecidableEq

/-- Go `NewDoQResolver`. -/
def newDoQResolver (address port serverName : String) (insecureSkipVerify : Bool)
    (timeout : Int) : DoQR :=
  { address := address, port := port, timeout := timeout,
    tlsServerName := serverName, tlsInsecure := insecureSkipVerify }

/-- A constructed resolver: one of the six variants. -/
inductive Resolver where
  | rDo53 : Do53R → Resolver
  | rDoT : DoTR → Resolver
  | rDoH : DoHR → Resolver
  | rDoH3 : DoH3R → Resolver
  | rDoQ : DoQR → Resolver
  deriving Repr, DecidableEq

/-- The `Protocol()` method of each variant. -/
def Resolver.protocol : Resolver → String
  | .rDo53 r => r.protocol
  | .rDoT _ => "dot"
  | .rDoH _ => "doh"
  | .rDoH3 _ => "doh3"
  | .rDoQ _ => "doq"

/-- Go `extractTLSConfig`: the TLS server name defaults to the server
address, overridden only by a non-empty configured server name. -/
def extractTLSConfig (server : DNSServer) : String × Bool :=
  match server.tls with
  | none => (server.address, false)
  | some t => (if t.serverName = "" then server.address else t.serverName,
               t.insecureSkipVerify)

/-- Go `NewResolver`: dispatch on the protocol tag; anything outside the
six recognized tags (including the empty tag) is an error. -/
def newResolver (server : DNSServer) (timeout : Int) : Except String Resolver :=
  let sn := extractTLSConfig server
  if server.protocol = "do53-udp" then
    .ok (.rDo53 (newDo53Resolver server.address server.port false timeout))
  else if server.protocol = "do53-tcp" then
    .ok (.rDo53 (newDo53Resolver server.address server.port true timeout))
  else if server.protocol = "dot" then
    .ok (.rDoT (newDoTResolver server.address server.port sn.1 sn.2 timeout))
  else if server.protocol = "doh" then
    .ok (.rDoH (newDoHResolver server.address server.port sn.1 sn.2 timeout))
  else if server.protocol = "doh3" then
    .ok (.rDoH3 (newDoH3Resolver server.address server.port sn.1 sn.2 timeout))
  else if server.protocol = "doq" then
    .ok (.rDoQ (newDoQResolver server.address server.port sn.1 sn.2 timeout))
  else
    .error ("unsupported protocol: " ++ server.protocol)

/-! ## Query models.  A decoded response is kept abstractly as the byte
list it was decoded from; decoding itself (`Msg.Unpack`) is an oracle.
Timing is a clock `Nat → Int` read at fixed points of control flow:
point 0 is `start := time.Now()`, later points are the `time.Since`
reads of the successive branches. -/

/-- The `QueryResult` record: decoded response (or absence), elapsed
duration in nanoseconds, and the error (or absence). -/
structure QueryResult where
  response : Option (List Nat)
  duration : Int
  err : Option String
  deriving Repr, DecidableEq

/-- Outcome of one `dns.Client.ExchangeContext` call plus the clock: the
library returns a response pointer and an error, either of which may
independently be present or absent. -/
structure ExchangeOracle where
  resp : Option (List Nat)
  err : Option String
  clock : Nat → Int

/-- `Do53Resolver.Query`: builds the question, exchanges it, and forwards
the library's response and error unchanged with the measured duration. -/
def do53Query (r : Do53R) (hostname : String) (qtype randId : Nat)
    (o : ExchangeOracle) : QueryResult :=
  let _msg := setQuestion randId hostname qtype
  let _serverAddr := r.address ++ ":" ++ r.port
  { response := o.resp, duration := o.clock 1 - o.clock 0, err := o.err }

/-- `DoTResolver.Query`: identical control flow to Do53 over the TLS
client; response and error are forwarded unchanged. -/
def dotQuery (r : DoTR) (hostname : String) (qtype randId : Nat)
    (o : ExchangeOracle) : QueryResult :=
  let _msg := setQuestion randId hostname qtype
  let _serverAddr := r.address ++ ":" ++ r.port
  { response := o.resp, duration := o.clock 1 - o.clock 0, err := o.err }

/-- Outcome of `httpClient.Do` when it does not fail. -/
structure HttpRespModel where
  statusCode : Nat
  bodyRead : Except String (List Nat)

/-- Oracle for one DoH or DoH3 query: request construction, the HTTP round
trip, response decoding, and the clock. -/
structure HttpOracle where
  newReqErr : Option String
  doResult : Except String HttpRespModel
  unpack : List Nat → Option (List Nat)
  clock : Nat → Int

/-- An HTTP request as the DoH and DoH3 resolvers build it: method, URL,
overridden Host header, the two fixed headers, and the packed body. -/
structure HttpRequestModel where
  method : String
  url : String
  hostHeader : String
  contentType : String
  accept : String
  body : List Nat
  deriving Repr, DecidableEq

/-- The request `DoHResolver.Query` builds: `SetQuestion` assigns a random
id which the DoH path immediately overwrites with `msg.Id = 0` before
packing; Host is overridden with the configured server name and both
content-negotiation headers are `application/dns-message`. -/
def dohBuildRequest (r : DoHR) (hostname : String) (qtype randId : Nat) :
    Option HttpRequestModel :=
  match packMsg { setQuestion randId hostname qtype with id := 0 } with
  | none => none
  | some wire =>
    some { method := "POST", url := r.url, hostHeader := r.host,
           contentType := "application/dns-message",
           accept := "application/dns-message", body := wire }

/-- The request `DoH3Resolver.Query` builds: identical to the DoH one
except that the random id assigned by `SetQuestion` is left in place. -/
def doh3BuildRequest (r : DoH3R) (hostname : String) (qtype randId : Nat) :
    Option HttpRequestModel :=
  match packMsg (setQuestion randId hostname qtype) with
  | none => none
  | some wire =>
    some { method := "POST", url := r.url, hostHeader := r.host,
           contentType := "application/dns-message",
           accept := "application/dns-message", body := wire }

/-- `DoHResolver.Query` branch structure: pack failure and request-creation
failure return before timing starts (zero duration); HTTP failure,
non-200 status, body-read failure, unpack failure and success each time
out of the same `start`. -/
def dohQuery (r : DoHR) (hostname : String) (qtype randId : Nat)
    (o : HttpOracle) : QueryResult :=
  match dohBuildRequest r hostname qtype randId with
  | none => { response := none, duration := 0, err := some "failed to pack DNS message" }
  | some _req =>
    match o.newReqErr with
    | some _ => { response := none, duration := 0, err := some "failed to create HTTP request" }
    | none =>
      match o.doResult with
      | .error _ =>
        { response := none, duration := o.clock 1 - o.clock 0,
          err := some "HTTP/2 request failed" }
      | .ok resp =>
        if resp.statusCode ≠ 200 then
          { response := none, duration := o.clock 2 - o.clock 0,
            err := some "HTTP status not OK" }
        else
          match resp.bodyRead with
          | .error _ =>
            { response := none, duration := o.clock 3 - o.clock 0,
              err := some "failed to read response body" }
          | .ok body =>
            match o.unpack body with
            | none =>
              { response := none, duration := o.clock 3 - o.clock 0,
                err := some "failed to unpack DNS response" }
            | some m =>
              { response := some m, duration := o.clock 3 - o.clock 0, err := none }

/-- `DoH3Resolver.Query`: same branch structure as DoH over the HTTP/3
client, with the message id left random. -/
def doh3Query (r : DoH3R) (hostname : String) (qtype randId : Nat)
    (o : HttpOracle) : QueryResult :=
  match doh3BuildRequest r hostname qtype randId with
  | none => { response := none, duration := 0, err := some "failed to pack DNS message" }
  | some _req =>
    match o.newReqErr with
    | some _ => { response := none, duration := 0, err := some "failed to create HTTP request" }
    | none =>
      match o.doResult with
      | .error _ =>
        { response := none, duration := o.clock 1 - o.clock 0,
          err := some "HTTP/3 request failed" }
      | .ok resp =>
        if resp.statusCode ≠ 200 then
          { response := none, duration := o.clock 2 - o.clock 0,
            err := some "HTTP status not OK" }
        else
          match resp.bodyRead with
          | .error _ =>
            { response := none, duration := o.clock 3 - o.clock 0,
              err := some "failed to read response body" }
          | .ok body =>
            match o.unpack body with
            | none =>
              { response := none, duration := o.clock 3 - o.clock 0,
                err := some "failed to unpack DNS response" }
            | some m =>
              { response := some m, duration := o.clock 3 - o.clock 0, err := none }

/-! ## DoQ: the QUIC stream interaction is recorded as a trace of stream
operations so that the RFC 9250 framing can be stated. -/

/-- One operation on the QUIC stream, as invoked by `DoQResolver.Query`:
a write of concrete bytes, the half-close of the send side, a
`io.ReadFull` of exactly `n` bytes, or the decode attempt on the bytes
read. -/
inductive DoQEvent where
  | write : List Nat → DoQEvent
  | closeSend : DoQEvent
  | readExact : Nat → DoQEvent
  | decodeResp : List Nat → DoQEvent
  deriving Repr, DecidableEq

/-- Oracle for one DoQ query: outcomes of dial, stream open, the two
writes and the close, the bytes the server side makes available on the
stream, response decoding, and the clock. -/
structure DoQOracle where
  dialErr : Option String
  openErr : Option String
  writeLenErr : Option String
  writeMsgErr : Option String
  closeErr : Option String
  incoming : List Nat
  unpack : List Nat → Option (List Nat)
  clock : Nat → Int

/-- `DoQResolver.Query`, returning both the `QueryResult` and the trace of
stream operations.  The length header is written as Go does it:
`byte(len >> 8), byte(len)`.  `io.ReadFull` succeeds exactly when enough
bytes remain on the stream. -/
def doqQuery (r : DoQR) (hostname : String) (qtype randId : Nat)
    (o : DoQOracle) : QueryResult × List DoQEvent :=
  match packMsg (setQuestion randId hostname qtype) with
  | none =>
    ({ response := none, duration := 0, err := some "failed to pack DNS message" }, [])
  | some wire =>
    let _serverAddr := r.address ++ ":" ++ r.port
    match o.dialErr with
    | some _ =>
      ({ response := none, duration := o.clock 1 - o.clock 0,
         err := some "QUIC dial failed" }, [])
    | none =>
      match o.openErr with
      | some _ =>
        ({ response := none, duration := o.clock 2 - o.clock 0,
           err := some "failed to open QUIC stream" }, [])
      | none =>
        let lengthHeader := [wire.length / 256 % 256, wire.length % 256]
        match o.writeLenErr with
        | some _ =>
          ({ response := none, duration := o.clock 3 - o.clock 0,
             err := some "failed to write length header" },
           [.write lengthHeader, .closeSend])
        | none =>
          match o.writeMsgErr with
          | some _ =>
            ({ response := none, duration := o.clock 4 - o.clock 0,
               err := some "failed to write DNS message" },
             [.write lengthHeader, .write wire, .closeSend])
          | none =>
            match o.closeErr with
            | some _ =>
              ({ response := none, duration := o.clock 5 - o.clock 0,
                 err := some "failed to close send side" },
               [.write lengthHeader, .write wire, .closeSend])
            | none =>
              let sendTrace : List DoQEvent := [.write lengthHeader, .write wire, .closeSend]
              if o.incoming.length < 2 then
                ({ response := none, duration := o.clock 6 - o.clock 0,
                   err := some "failed to read response length" },
                 sendTrace ++ [.readExact 2])
              else
                let respLength := o.incoming.getD 0 0 * 256 + o.incoming.getD 1 0
                let rest := o.incoming.drop 2
                if rest.length < respLength then
                  ({ response := none, duration := o.clock 7 - o.clock 0,
                     err := some "failed to read response" },
                   sendTrace ++ [.readExact 2, .readExact respLength])
                else
                  let respBuf := rest.take respLength
                  match o.unpack respBuf with
                  | none =>
                    ({ response := none, duration := o.clock 8 - o.clock 0,
                       err := some "failed to unpack DNS response" },
                     sendTrace ++ [.readExact 2, .readExact respLength, .decodeResp respBuf])
                  | some m =>
                    ({ response := some m, duration := o.clock 8 - o.clock 0, err := none },
                     sendTrace ++ [.readExact 2, .readExact respLength, .decodeResp respBuf])

/-! ## Prober (internal/prober): one probe cycle as a trace of observable
events.  The per-query outcome is an oracle indexed by the number of
probes issued so far; the context is the boolean each `ctx.Done()`
check observes, indexed the same way (the check before probe `k` sees
`cancel k`). -/

/-- Go `Prober.New` timeout resolution: `cfg.Timeout` milliseconds as a
nanosecond duration, or 2 s when that duration is zero. -/
def proberTimeout (cfg : Config) : Int :=
  let t := cfg.timeout * 1000000
  if t = 0 then 2000000000 else t

/-- The `address:port` metric label for a server. -/
def serverAddrOf (s : DNSServer) : String := s.address ++ ":" ++ s.port

/-- The protocol label `Run` reads from the resolver held for a server:
`Protocol()` of the resolver `New` built for it.  Two servers with the
same map key `address:port:protocol` build resolvers with the same
`Protocol()` value, so overwriting in the map is observationally
irrelevant here.  The empty string stands for the nil-map lookup that
cannot occur after a successful `New`. -/
def resolverProtocolOf (timeout : Int) (s : DNSServer) : String :=
  match newResolver s timeout with
  | .ok r => r.protocol
  | .error _ => ""

/-- One observable event of a probe cycle: a report to the metrics sink
(domain, `address:port`, protocol, duration, success flag) or the fixed
500 ms inter-probe sleep. -/
inductive ProbeEvent where
  | report : String → String → String → Int → Bool → ProbeEvent
  | sleep500 : ProbeEvent
  deriving Repr, DecidableEq

/-- Whether an event is a report to the metrics sink. -/
def ProbeEvent.isReport : ProbeEvent → Bool
  | .report _ _ _ _ _ => true
  | .sleep500 => false

/-- The innermost repetition loop of `Run`: before each probe the context
is checked; once cancellation is observed the whole cycle returns (the
`true` flag).  Each issued probe is reported — with success defined as
`result.Err == nil` — and followed by the 500 ms sleep. -/
def runReps (dname saddr proto : String) (oracle : Nat → QueryResult)
    (cancel : Nat → Bool) (k : Nat) : Nat → List ProbeEvent × Nat × Bool
  | 0 => ([], k, false)
  | n + 1 =>
    if cancel k then ([], k, true)
    else
      let res := oracle k
      let rest := runReps dname saddr proto oracle cancel (k + 1) n
      (.report dname saddr proto res.duration res.err.isNone :: .sleep500 :: rest.1,
       rest.2.1, rest.2.2)

/-- The middle loop of `Run` over servers; an observed cancellation in the
repetition loop aborts the remaining servers too. -/
def runServers (dname : String) (reps : Nat) (timeout : Int)
    (oracle : Nat → QueryResult) (cancel : Nat → Bool) (k : Nat) :
    List DNSServer → List ProbeEvent × Nat × Bool
  | [] => ([], k, false)
  | s :: ss =>
    let r := runReps dname (serverAddrOf s) (resolverProtocolOf timeout s) oracle cancel k reps
    if r.2.2 then r
    else
      let rest := runServers dname reps timeout oracle cancel r.2.1 ss
      (r.1 ++ rest.1, rest.2)

/-- The outer loop of `Run` over domains; `domain.Probes` is a Go `int`,
so a non-positive probe count yields zero iterations. -/
def runDomains (servers : List DNSServer) (timeout : Int)
    (oracle : Nat → QueryResult) (cancel : Nat → Bool) (k : Nat) :
    List Domain → List ProbeEvent × Nat × Bool
  | [] => ([], k, false)
  | d :: ds =>
    let r := runServers d.name d.probes.toNat timeout oracle cancel k servers
    if r.2.2 then r
    else
      let rest := runDomains servers timeout oracle cancel r.2.1 ds
      (r.1 ++ rest.1, rest.2)

/-- One probe cycle, `Prober.Run`: the event trace it produces. -/
def runCycle (cfg : Config) (oracle : Nat → QueryResult) (cancel : Nat → Bool) :
    List ProbeEvent :=
  (runDomains cfg.dnsServers (proberTimeout cfg) oracle cancel 0 cfg.domains).1

/-- The flattened iteration space of one cycle: for each domain in order,
for each server in order, `probes` repetitions. -/
def cycleIters (cfg : Config) : List (Domain × DNSServer) :=
  cfg.domains.flatMap fun d => cfg.dnsServers.flatMap fun s =>
    List.replicate d.probes.toNat (d, s)

/-- The pair of events of the `k`-th issued probe: its report, then the
500 ms sleep. -/
def probeBlock (timeout : Int) (oracle : Nat → QueryResult) (k : Nat)
    (ds : Domain × DNSServer) : List ProbeEvent :=
  [.report ds.1.name (serverAddrOf ds.2) (resolverProtocolOf timeout ds.2)
     (oracle k).duration (oracle k).err.isNone,
   .sleep500]

/-- The canonical trace of the iteration list `l` starting at global probe
index `k`: the probe blocks in order. -/
def specFrom (timeout : Int) (oracle : Nat → QueryResult) :
    Nat → List (Domain × DNSServer) → List ProbeEvent
  | _, [] => []
  | k, ds :: l => probeBlock timeout oracle k ds ++ specFrom timeout oracle (k + 1) l

/-- The canonical trace of a whole un-canceled cycle. -/
def cycleSpec (cfg : Config) (oracle : Nat → QueryResult) : List ProbeEvent :=
  specFrom (proberTimeout cfg) oracle 0 (cycleIters cfg)

/-! ## Metrics sink (internal/metrics): `RecordQuery`. -/

/-- A metric label triple. -/
structure MetricKey where
  domain : String
  server : String
  protocol : String
  deriving Repr, DecidableEq

/-- The metrics state: every histogram observation and every counter
increment, in order. -/
structure MetricsState where
  durationObs : List (MetricKey × Int)
  successTotal : List MetricKey
  failureTotal : List MetricKey
  deriving Repr, DecidableEq

/-- Go `RecordQuery`: one histogram observation always, then exactly one
of the success or failure counters. -/
def recordQuery (st : MetricsState) (domain server protocol : String)
    (duration : Int) (success : Bool) : MetricsState :=
  let key : MetricKey := ⟨domain, server, protocol⟩
  { durationObs := st.durationObs ++ [(key, duration)],
    successTotal := if success then st.successTotal ++ [key] else st.successTotal,
    failureTotal := if success then st.failureTotal else st.failureTotal ++ [key] }

/-! ## Spec-side shapes used by the theorems. -/

/-- The TLS server name stored at construction by the variants that keep
one. -/
def resolverTLSServerName : Resolver → Option String
  | .rDo53 _ => none
  | .rDoT r => some r.tlsServerName
  | .rDoH r => some r.tlsServerName
  | .rDoH3 r => some r.tlsServerName
  | .rDoQ r => some r.tlsServerName

/-- The RFC 9250 framing of one DoQ exchange, as the spec describes it:
write the two-byte big-endian length of the packed message, write the
message, half-close the send side; then read exactly two bytes, read
exactly the big-endian count they carry, and only then decode.  Read
steps beyond the bytes the stream actually delivers are absent. -/
def doqFraming (wire incoming : List Nat) : List DoQEvent :=
  let n := incoming.getD 0 0 * 256 + incoming.getD 1 0
  [DoQEvent.write (encodeU16 wire.length), .write wire, .closeSend, .readExact 2] ++
  (if incoming.length < 2 then []
   else [.readExact n] ++
     (if (incoming.drop 2).length < n then []
      else [.decodeResp ((incoming.drop 2).take n)]))

/-! ## Helper lemmas. -/

theorem digitsBE_length (v : Nat) : ∀ d, (digitsBE v d).length = d := by
  intro d
  induction d with
  | zero => rfl
  | succ d ih => simp [digitsBE, ih]

theorem digitsBE_lt (v : Nat) : ∀ d, ∀ x ∈ digitsBE v d, x < 32 := by
  intro d
  induction d with
  | zero => simp [digitsBE]
  | succ d ih =>
    intro x hx
    simp only [digitsBE, List.mem_cons] at hx
    rcases hx with h | h
    · subst h; exact Nat.mod_lt _ (by norm_num)
    · exact ih x h

theorem base32Alphabet_ranges :
    ∀ c ∈ base32Alphabet,
      (65 ≤ c.toNat ∧ c.toNat ≤ 90) ∨ (50 ≤ c.toNat ∧ c.toNat ≤ 55) := by decide

theorem base32Alphabet_getD_mem (i : Nat) (h : i < 32) :
    base32Alphabet.getD i (Char.ofNat 65) ∈ base32Alphabet := by
  have hl : i < base32Alphabet.length := by
    have : base32Alphabet.length = 32 := by decide
    omega
  rw [List.getD_eq_getElem _ _ hl]
  exact List.getElem_mem hl

theorem packName_length_le (s : String) (nm : List Nat)
    (h : packName s = some nm) : nm.length ≤ 255 := by
  unfold packName at h
  rcases hp : packLabels (nameLabels s) with _ | bs
  · rw [hp] at h; simp at h
  · rw [hp] at h
    by_cases hb : 255 < bs.length
    · simp [hb] at h
    · simp only [hb, if_false, Option.some.injEq] at h
      subst h; omega

theorem packMsg_length_le (m : DnsQuestion) (w : List Nat)
    (h : packMsg m = some w) : w.length ≤ 271 := by
  unfold packMsg at h
  rcases hp : packName m.qname with _ | nm
  · rw [hp] at h; simp at h
  · rw [hp] at h
    simp only [Option.some.injEq] at h
    have := packName_length_le m.qname nm hp
    subst h
    simp [encodeU16]
    omega

theorem dohQuery_invariant (r : DoHR) (hostname : String) (qtype randId : Nat)
    (o : HttpOracle) :
    (dohQuery r hostname qtype randId o).response.isSome
      = (dohQuery r hostname qtype randId o).err.isNone := by
  unfold dohQuery
  repeat' split
  all_goals simp

theorem dohQuery_duration_nonneg (r : DoHR) (hostname : String) (qtype randId : Nat)
    (o : HttpOracle) (mono : ∀ i j : Nat, i ≤ j → o.clock i ≤ o.clock j) :
    0 ≤ (dohQuery r hostname qtype randId o).duration := by
  unfold dohQuery
  repeat' split
  all_goals simp
  all_goals exact mono 0 _ (Nat.zero_le _)

theorem doh3Query_invariant (r : DoH3R) (hostname : String) (qtype randId : Nat)
    (o : HttpOracle) :
    (doh3Query r hostname qtype randId o).response.isSome
      = (doh3Query r hostname qtype randId o).err.isNone := by
  unfold doh3Query
  repeat' split
  all_goals simp

theorem doh3Query_duration_nonneg (r : DoH3R) (hostname : String) (qtype randId : Nat)
    (o : HttpOracle) (mono : ∀ i j : Nat, i ≤ j → o.clock i ≤ o.clock j) :
    0 ≤ (doh3Query r hostname qtype randId o).duration := by
  unfold doh3Query
  repeat' split
  all_goals simp
  all_goals exact mono 0 _ (Nat.zero_le _)

theorem doqQuery_invariant (r : DoQR) (hostname : String) (qtype randId : Nat)
    (o : DoQOracle) :
    (doqQuery r hostname qtype randId o).1.response.isSome
      = (doqQuery r hostname qtype randId o).1.err.isNone := by
  unfold doqQuery
  repeat' split
  all_goals (try simp)
  all_goals (repeat' split)
  all_goals simp

theorem doqQuery_duration_nonneg (r : DoQR) (hostname : String) (qtype randId : Nat)
    (o : DoQOracle) (mono : ∀ i j : Nat, i ≤ j → o.clock i ≤ o.clock j) :
    0 ≤ (doqQuery r hostname qtype randId o).1.duration := by
  unfold doqQuery
  repeat' split
  all_goals (try simp)
  all_goals (repeat' split)
  all_goals (try simp)
  all_goals exact mono 0 _ (Nat.zero_le _)

/-! ## Lemmas used by the prober claims. -/

theorem specFrom_append (t : Int) (oracle : Nat → QueryResult) :
    ∀ (l1 l2 : List (Domain × DNSServer)) (k : Nat),
      specFrom t oracle k (l1 ++ l2)
        = specFrom t oracle k l1 ++ specFrom t oracle (k + l1.length) l2 := by
  intro l1
  induction l1 with
  | nil => simp [specFrom]
  | cons ds l ih =>
    intro l2 k
    have hidx : k + 1 + l.length = k + (l.length + 1) := by omega
    simp only [List.cons_append, specFrom, List.length_cons, List.append_assoc,
      List.append_eq]
    rw [ih, hidx]

theorem runReps_noCancel (d : Domain) (s : DNSServer) (t : Int)
    (oracle : Nat → QueryResult) :
    ∀ (n k : Nat),
      runReps d.name (serverAddrOf s) (resolverProtocolOf t s) oracle
          (fun _ => false) k n
        = (specFrom t oracle k (List.replicate n (d, s)), k + n, false) := by
  intro n
  induction n with
  | zero => intro k; simp [runReps, specFrom]
  | succ n ih =>
    intro k
    simp only [runReps, ih, Bool.false_eq_true, if_false, List.replicate_succ, specFrom,
      probeBlock, Prod.mk.injEq]
    exact ⟨rfl, by omega, trivial⟩

theorem runServers_noCancel (d : Domain) (reps : Nat) (t : Int)
    (oracle : Nat → QueryResult) :
    ∀ (ss : List DNSServer) (k : Nat),
      runServers d.name reps t oracle (fun _ => false) k ss
        = (specFrom t oracle k (ss.flatMap fun s => List.replicate reps (d, s)),
           k + (ss.flatMap fun s => List.replicate reps (d, s)).length, false) := by
  intro ss
  induction ss with
  | nil => intro k; simp [runServers, specFrom]
  | cons s ss ih =>
    intro k
    simp only [runServers, runReps_noCancel, Bool.false_eq_true, if_false, ih,
      List.flatMap_cons, Prod.mk.injEq]
    rw [specFrom_append, List.length_replicate, List.length_append, List.length_replicate]
    exact ⟨rfl, by omega, trivial⟩

theorem runDomains_noCancel (t : Int) (servers : List DNSServer)
    (oracle : Nat → QueryResult) :
    ∀ (ds : List Domain) (k : Nat),
      runDomains servers t oracle (fun _ => false) k ds
        = (specFrom t oracle k (ds.flatMap fun d => servers.flatMap fun s =>
             List.replicate d.probes.toNat (d, s)),
           k + (ds.flatMap fun d => servers.flatMap fun s =>
             List.replicate d.probes.toNat (d, s)).length, false) := by
  intro ds
  induction ds with
  | nil => intro k; simp [runDomains, specFrom]
  | cons d ds ih =>
    intro k
    simp only [runDomains, runServers_noCancel, Bool.false_eq_true, if_false, ih,
      List.flatMap_cons, Prod.mk.injEq]
    rw [specFrom_append, List.length_append]
    exact ⟨rfl, by omega, trivial⟩

theorem runReps_cancelAt (m : Nat) (d : Domain) (s : DNSServer) (t : Int)
    (oracle : Nat → QueryResult) :
    ∀ (n k : Nat),
      runReps d.name (serverAddrOf s) (resolverProtocolOf t s) oracle
          (fun i => decide (m ≤ i)) k n
        = (specFrom t oracle k ((List.replicate n (d, s)).take (m - k)),
           k + min n (m - k), decide (0 < n ∧ m < k + n)) := by
  intro n
  induction n with
  | zero =>
    intro k
    simp only [runReps, List.replicate_zero, List.take_nil, specFrom, Prod.mk.injEq]
    refine ⟨trivial, by omega, ?_⟩
    simp
  | succ n ih =>
    intro k
    by_cases hmk : m ≤ k
    · have h0 : m - k = 0 := by omega
      simp only [runReps, decide_eq_true_eq, hmk, if_true, h0, List.take_zero, specFrom,
        Prod.mk.injEq]
      refine ⟨trivial, by omega, ?_⟩
      rw [eq_comm, decide_eq_true_iff]
      exact ⟨by omega, by omega⟩
    · have hk1 : m - k = (m - (k + 1)) + 1 := by omega
      simp only [runReps, decide_eq_true_eq, hmk, if_false, ih, List.replicate_succ,
        hk1, List.take_succ_cons, specFrom, probeBlock, Prod.mk.injEq]
      refine ⟨rfl, by omega, ?_⟩
      rw [decide_eq_decide]
      omega

theorem runServers_cancelAt (m : Nat) (d : Domain) (reps : Nat) (t : Int)
    (oracle : Nat → QueryResult) :
    ∀ (ss : List DNSServer) (k : Nat),
      runServers d.name reps t oracle (fun i => decide (m ≤ i)) k ss
        = (specFrom t oracle k
             ((ss.flatMap fun s => List.replicate reps (d, s)).take (m - k)),
           k + min (ss.flatMap fun s => List.replicate reps (d, s)).length (m - k),
           decide (0 < (ss.flatMap fun s => List.replicate reps (d, s)).length ∧
             m < k + (ss.flatMap fun s => List.replicate reps (d, s)).length)) := by
  intro ss
  induction ss with
  | nil =>
    intro k
    simp only [runServers, List.flatMap_nil, List.take_nil, specFrom, List.length_nil,
      Prod.mk.injEq]
    refine ⟨trivial, by omega, ?_⟩
    simp
  | cons s ss ih =>
    intro k
    by_cases habort : 0 < reps ∧ m < k + reps
    · simp only [runServers, runReps_cancelAt, List.flatMap_cons]
      rw [if_pos (by simpa using habort)]
      rw [List.take_append_eq_append_take, List.length_replicate]
      have h0 : m - k - reps = 0 := by omega
      rw [h0, List.take_zero, List.append_nil, List.length_append, List.length_replicate]
      simp only [Prod.mk.injEq]
      refine ⟨trivial, by omega, ?_⟩
      rw [decide_eq_decide]
      omega
    · simp only [runServers, runReps_cancelAt, List.flatMap_cons]
      rw [if_neg (by simpa using habort)]
      have hk1 : k + min reps (m - k) = k + reps := by omega
      rw [hk1, ih]
      have htake : (List.replicate reps (d, s)).take (m - k)
          = List.replicate reps (d, s) := by
        apply List.take_of_length_le
        rw [List.length_replicate]
        omega
      have hsub : m - k - reps = m - (k + reps) := by omega
      rw [List.take_append_eq_append_take, List.length_replicate, hsub, htake,
        specFrom_append, List.length_replicate, List.length_append, List.length_replicate]
      simp only [Prod.mk.injEq]
      refine ⟨trivial, by omega, ?_⟩
      rw [decide_eq_decide]
      omega


theorem runDomains_cancelAt (m : Nat) (servers : List DNSServer) (t : Int)
    (oracle : Nat → QueryResult) :
    ∀ (ds : List Domain) (k : Nat),
      runDomains servers t oracle (fun i => decide (m ≤ i)) k ds
        = (specFrom t oracle k
             ((ds.flatMap fun d => servers.flatMap fun s =>
                List.replicate d.probes.toNat (d, s)).take (m - k)),
           k + min (ds.flatMap fun d => servers.flatMap fun s =>
                List.replicate d.probes.toNat (d, s)).length (m - k),
           decide (0 < (ds.flatMap fun d => servers.flatMap fun s =>
                List.replicate d.probes.toNat (d, s)).length ∧
             m < k + (ds.flatMap fun d => servers.flatMap fun s =>
                List.replicate d.probes.toNat (d, s)).length)) := by
  intro ds
  induction ds with
  | nil =>
    intro k
    simp only [runDomains, List.flatMap_nil, List.take_nil, specFrom, List.length_nil,
      Prod.mk.injEq]
    refine ⟨trivial, by omega, ?_⟩
    simp
  | cons d ds ih =>
    intro k
    set L1 := servers.flatMap fun s => List.replicate d.probes.toNat (d, s) with hL1
    by_cases habort : 0 < L1.length ∧ m < k + L1.length
    · simp only [runDomains, runServers_cancelAt, List.flatMap_cons, ← hL1]
      rw [if_pos (by simpa using habort)]
      rw [List.take_append_eq_append_take]
      have h0 : m - k - L1.length = 0 := by omega
      rw [h0, List.take_zero, List.append_nil, List.length_append]
      simp only [Prod.mk.injEq]
      refine ⟨trivial, by omega, ?_⟩
      rw [decide_eq_decide]
      omega
    · simp only [runDomains, runServers_cancelAt, List.flatMap_cons, ← hL1]
      rw [if_neg (by simpa using habort)]
      have hk1 : k + min L1.length (m - k) = k + L1.length := by omega
      rw [hk1, ih]
      have htake : L1.take (m - k) = L1 := by
        apply List.take_of_length_le
        omega
      have hsub : m - k - L1.length = m - (k + L1.length) := by omega
      rw [List.take_append_eq_append_take, hsub, htake, specFrom_append,
        List.length_append]
      simp only [Prod.mk.injEq]
      refine ⟨trivial, by omega, ?_⟩
      rw [decide_eq_decide]
      omega


theorem runReps_congr (dname saddr proto : String) (o1 o2 : Nat → QueryResult)
    (cancel : Nat → Bool)
    (h : ∀ i, (o1 i).err = (o2 i).err ∧ (o1 i).duration = (o2 i).duration) :
    ∀ (n k : Nat),
      runReps dname saddr proto o1 cancel k n = runReps dname saddr proto o2 cancel k n := by
  intro n
  induction n with
  | zero => intro k; rfl
  | succ n ih =>
    intro k
    simp only [runReps, ih, (h k).1, (h k).2]

theorem runServers_congr (dname : String) (reps : Nat) (t : Int)
    (o1 o2 : Nat → QueryResult) (cancel : Nat → Bool)
    (h : ∀ i, (o1 i).err = (o2 i).err ∧ (o1 i).duration = (o2 i).duration) :
    ∀ (ss : List DNSServer) (k : Nat),
      runServers dname reps t o1 cancel k ss = runServers dname reps t o2 cancel k ss := by
  intro ss
  induction ss with
  | nil => intro k; rfl
  | cons s ss ih =>
    intro k
    simp only [runServers, runReps_congr dname _ _ o1 o2 cancel h, ih]

theorem runDomains_congr (servers : List DNSServer) (t : Int)
    (o1 o2 : Nat → QueryResult) (cancel : Nat → Bool)
    (h : ∀ i, (o1 i).err = (o2 i).err ∧ (o1 i).duration = (o2 i).duration) :
    ∀ (ds : List Domain) (k : Nat),
      runDomains servers t o1 cancel k ds = runDomains servers t o2 cancel k ds := by
  intro ds
  induction ds with
  | nil => intro k; rfl
  | cons d ds ih =>
    intro k
    simp only [runDomains, runServers_congr d.name _ t o1 o2 cancel h, ih]

theorem runReps_report_mem (dname saddr proto : String) (oracle : Nat → QueryResult)
    (cancel : Nat → Bool) :
    ∀ (n k : Nat), ∀ ev ∈ (runReps dname saddr proto oracle cancel k n).1,
      ev = .sleep500 ∨
        ∃ j, ev = .report dname saddr proto (oracle j).duration (oracle j).err.isNone := by
  intro n
  induction n with
  | zero => intro k ev hev; simp [runReps] at hev
  | succ n ih =>
    intro k ev hev
    simp only [runReps] at hev
    by_cases hc : cancel k
    · rw [if_pos hc] at hev; simp at hev
    · rw [if_neg hc] at hev
      simp only [List.mem_cons] at hev
      rcases hev with h | h | h
      · exact Or.inr ⟨k, h⟩
      · exact Or.inl h
      · exact ih (k + 1) ev h

theorem runServers_report_mem (dname : String) (reps : Nat) (t : Int)
    (oracle : Nat → QueryResult) (cancel : Nat → Bool) :
    ∀ (ss : List DNSServer) (k : Nat),
      ∀ ev ∈ (runServers dname reps t oracle cancel k ss).1,
        ev = .sleep500 ∨
          ∃ j sa pr, ev = .report dname sa pr (oracle j).duration (oracle j).err.isNone := by
  intro ss
  induction ss with
  | nil => intro k ev hev; simp [runServers] at hev
  | cons s ss ih =>
    intro k ev hev
    simp only [runServers] at hev
    by_cases hab : (runReps dname (serverAddrOf s) (resolverProtocolOf t s)
        oracle cancel k reps).2.2
    · rw [if_pos hab] at hev
      rcases runReps_report_mem dname _ _ oracle cancel reps k ev hev with h | ⟨j, h⟩
      · exact Or.inl h
      · exact Or.inr ⟨j, _, _, h⟩
    · rw [if_neg hab] at hev
      simp only [List.mem_append] at hev
      rcases hev with h | h
      · rcases runReps_report_mem dname _ _ oracle cancel reps k ev h with h2 | ⟨j, h2⟩
        · exact Or.inl h2
        · exact Or.inr ⟨j, _, _, h2⟩
      · exact ih _ ev h

theorem runDomains_report_mem (servers : List DNSServer) (t : Int)
    (oracle : Nat → QueryResult) (cancel : Nat → Bool) :
    ∀ (ds : List Domain) (k : Nat),
      ∀ ev ∈ (runDomains servers t oracle cancel k ds).1,
        ev = .sleep500 ∨
          ∃ j dn sa pr, ev = .report dn sa pr (oracle j).duration (oracle j).err.isNone := by
  intro ds
  induction ds with
  | nil => intro k ev hev; simp [runDomains] at hev
  | cons d ds ih =>
    intro k ev hev
    simp only [runDomains] at hev
    by_cases hab : (runServers d.name d.probes.toNat t oracle cancel k servers).2.2
    · rw [if_pos hab] at hev
      rcases runServers_report_mem d.name _ t oracle cancel servers k ev hev with h | ⟨j, sa, pr, h⟩
      · exact Or.inl h
      · exact Or.inr ⟨j, _, _, _, h⟩
    · rw [if_neg hab] at hev
      simp only [List.mem_append] at hev
      rcases hev with h | h
      · rcases runServers_report_mem d.name _ t oracle cancel servers k ev h with h2 | ⟨j, sa, pr, h2⟩
        · exact Or.inl h2
        · exact Or.inr ⟨j, _, _, _, h2⟩
      · exact ih _ ev h


/-! ## Claim theorems. -/

/-- Claim C1, counterexample.  The claim asserts that for every Query
Result of all six variants the decoded response is present iff the
failure indicator is absent.  The do53 variants (and dot) forward the
response and error of `dns.Client.ExchangeContext` unchanged, and that
library call can return both a response and an error (e.g. `ErrId` on a
transaction-id mismatch).  At such an exchange outcome the do53-udp
Query Result carries both a present response and a present failure. -/
theorem C1_counterexample :
    ¬ ((do53Query (newDo53Resolver "9.9.9.9" "53" false 2000000000) "example.com" 1 7
          { resp := some [0, 1], err := some "dns: id mismatch", clock := fun n => (n : Int) }).response.isSome
        = (do53Query (newDo53Resolver "9.9.9.9" "53" false 2000000000) "example.com" 1 7
          { resp := some [0, 1], err := some "dns: id mismatch", clock := fun n => (n : Int) }).err.isNone) := by
  decide

/-- Claim C1, amended.  For the doh, doh3 and doq variants the invariant
`response present ⇔ failure absent` holds on every outcome; for the
do53-udp, do53-tcp and dot variants the response and error of the
underlying exchange are forwarded unchanged, so the invariant holds
whenever the exchange outcome itself satisfies it.  The recorded
duration is non-negative on every outcome (a difference of two reads of
the monotonic clock; the pack/request-construction failure branches of
doh, doh3 and doq return the zero value taken before timing starts). -/
theorem C1_response_failure_duration
    (r53 : Do53R) (rdot : DoTR) (rh : DoHR) (rh3 : DoH3R) (rq : DoQR)
    (hostname : String) (qtype randId : Nat)
    (o53 odot : ExchangeOracle) (oh oh3 : HttpOracle) (oq : DoQOracle)
    (hx53 : o53.resp.isSome = o53.err.isNone)
    (hxdot : odot.resp.isSome = odot.err.isNone)
    (m53 : ∀ i j : Nat, i ≤ j → o53.clock i ≤ o53.clock j)
    (mdot : ∀ i j : Nat, i ≤ j → odot.clock i ≤ odot.clock j)
    (mh : ∀ i j : Nat, i ≤ j → oh.clock i ≤ oh.clock j)
    (mh3 : ∀ i j : Nat, i ≤ j → oh3.clock i ≤ oh3.clock j)
    (mq : ∀ i j : Nat, i ≤ j → oq.clock i ≤ oq.clock j) :
    ((do53Query r53 hostname qtype randId o53).response.isSome
        = (do53Query r53 hostname qtype randId o53).err.isNone) ∧
    ((dotQuery rdot hostname qtype randId odot).response.isSome
        = (dotQuery rdot hostname qtype randId odot).err.isNone) ∧
    ((dohQuery rh hostname qtype randId oh).response.isSome
        = (dohQuery rh hostname qtype randId oh).err.isNone) ∧
    ((doh3Query rh3 hostname qtype randId oh3).response.isSome
        = (doh3Query rh3 hostname qtype randId oh3).err.isNone) ∧
    ((doqQuery rq hostname qtype randId oq).1.response.isSome
        = (doqQuery rq hostname qtype randId oq).1.err.isNone) ∧
    0 ≤ (do53Query r53 hostname qtype randId o53).duration ∧
    0 ≤ (dotQuery rdot hostname qtype randId odot).duration ∧
    0 ≤ (dohQuery rh hostname qtype randId oh).duration ∧
    0 ≤ (doh3Query rh3 hostname qtype randId oh3).duration ∧
    0 ≤ (doqQuery rq hostname qtype randId oq).1.duration := by
  refine ⟨hx53, hxdot, dohQuery_invariant rh hostname qtype randId oh,
    doh3Query_invariant rh3 hostname qtype randId oh3,
    doqQuery_invariant rq hostname qtype randId oq, ?_, ?_,
    dohQuery_duration_nonneg rh hostname qtype randId oh mh,
    doh3Query_duration_nonneg rh3 hostname qtype randId oh3 mh3,
    doqQuery_duration_nonneg rq hostname qtype randId oq mq⟩
  · simp only [do53Query, sub_nonneg]
    exact m53 0 1 (by omega)
  · simp only [dotQuery, sub_nonneg]
    exact mdot 0 1 (by omega)

/-- Claim C1, witness: the amended theorem applied at a concrete
successful do53 exchange (response present, no error) and concrete
successful oracles for the other variants. -/
theorem C1_witness :
    (do53Query (newDo53Resolver "9.9.9.9" "53" false 2000000000) "example.com" 1 7
        { resp := some [0], err := none, clock := fun n => (n : Int) }).response.isSome
      = (do53Query (newDo53Resolver "9.9.9.9" "53" false 2000000000) "example.com" 1 7
        { resp := some [0], err := none, clock := fun n => (n : Int) }).err.isNone :=
  (C1_response_failure_duration
    (newDo53Resolver "9.9.9.9" "53" false 2000000000)
    (newDoTResolver "9.9.9.9" "853" "dns.quad9.net" false 2000000000)
    (newDoHResolver "9.9.9.9" "443" "dns.quad9.net" false 2000000000)
    (newDoH3Resolver "9.9.9.9" "443" "dns.quad9.net" false 2000000000)
    (newDoQResolver "9.9.9.9" "853" "dns.quad9.net" false 2000000000)
    "example.com" 1 7
    { resp := some [0], err := none, clock := fun n => (n : Int) }
    { resp := some [0], err := none, clock := fun n => (n : Int) }
    { newReqErr := none, doResult := .ok { statusCode := 200, bodyRead := .ok [1] },
      unpack := fun bs => some bs, clock := fun n => (n : Int) }
    { newReqErr := none, doResult := .ok { statusCode := 200, bodyRead := .ok [1] },
      unpack := fun bs => some bs, clock := fun n => (n : Int) }
    { dialErr := none, openErr := none, writeLenErr := none, writeMsgErr := none,
      closeErr := none, incoming := [0, 1, 9], unpack := fun bs => some bs,
      clock := fun n => (n : Int) }
    (by decide) (by decide)
    (fun i j h => by show (i : Int) ≤ (j : Int); exact_mod_cast h)
    (fun i j h => by show (i : Int) ≤ (j : Int); exact_mod_cast h)
    (fun i j h => by show (i : Int) ≤ (j : Int); exact_mod_cast h)
    (fun i j h => by show (i : Int) ≤ (j : Int); exact_mod_cast h)
    (fun i j h => by show (i : Int) ≤ (j : Int); exact_mod_cast h)).1


/-- Claim C2: for every doq Query invocation that reaches the wire (dial,
stream open, both writes and the half-close succeed), the stream trace
is exactly: write the 2-byte big-endian length prefix of the packed
message, write the packed message, half-close the send side, read
exactly 2 bytes, read exactly the big-endian count those bytes carry,
and only then attempt to decode; and the 2-byte prefix read back as a
big-endian number equals the packed message length. -/
theorem C2_doq_framing (r : DoQR) (hostname : String) (qtype randId : Nat)
    (o : DoQOracle) (wire : List Nat)
    (hpack : packMsg (setQuestion randId hostname qtype) = some wire)
    (hdial : o.dialErr = none) (hopen : o.openErr = none)
    (hw1 : o.writeLenErr = none) (hw2 : o.writeMsgErr = none)
    (hcl : o.closeErr = none) :
    (doqQuery r hostname qtype randId o).2 = doqFraming wire o.incoming ∧
    bytesToNum (encodeU16 wire.length) = wire.length := by
  have hlen : wire.length ≤ 271 := packMsg_length_le _ _ hpack
  constructor
  · unfold doqQuery doqFraming
    rw [hpack, hdial, hopen, hw1, hw2, hcl]
    simp only [encodeU16]
    split_ifs with h1 h2
    · rfl
    · rfl
    · cases o.unpack ((o.incoming.drop 2).take
        (o.incoming.getD 0 0 * 256 + o.incoming.getD 1 0)) <;> rfl
  · simp only [bytesToNum, encodeU16, List.foldl]
    omega

/-- Claim C2, witness: the framing theorem applied to a concrete query
for `example.com` over a stream that answers with a 1-byte message. -/
theorem C2_witness :
    bytesToNum (encodeU16 (29 : Nat)) = 29 := by
  have h := (C2_doq_framing
    (newDoQResolver "9.9.9.9" "853" "dns.quad9.net" false 2000000000)
    "example.com" 1 0
    { dialErr := none, openErr := none, writeLenErr := none, writeMsgErr := none,
      closeErr := none, incoming := [0, 1, 9], unpack := fun bs => some bs,
      clock := fun n => (n : Int) }
    [0, 0, 1, 0, 0, 1, 0, 0, 0, 0, 0, 0, 7, 101, 120, 97, 109, 112, 108, 101,
     3, 99, 111, 109, 0, 0, 1, 0, 1]
    (by decide) rfl rfl rfl rfl rfl).2
  simpa using h

/-- Claim C3: one un-canceled probe cycle produces exactly the canonical
trace: for every domain in configuration order, for every server in
configuration order, `probes` repetitions, each one report to the
metrics sink immediately followed by one 500 ms inter-probe sleep — so
each (domain, server) pair gets exactly its `probes` reports, in
domain-then-server-then-repetition order, with the delay between
consecutive probes and no additional delay at domain or server
boundaries. -/
theorem C3_cycle_trace (cfg : Config) (oracle : Nat → QueryResult) :
    runCycle cfg oracle (fun _ => false) = cycleSpec cfg oracle := by
  unfold runCycle cycleSpec cycleIters
  rw [runDomains_noCancel]

/-- Claim C4, counterexample.  The claim asserts that no result is
reported for an in-flight probe interrupted by cancellation.  Here the
cancellation fires while probe 0 is in flight (every check from index 1
on observes it, and probe 0 returns the context-cancellation failure),
yet the cycle reports probe 0 before the next check stops the cycle. -/
theorem C4_counterexample :
    runCycle
      { domains := [{ name := "example.com", probes := 3 }],
        dnsServers := [{ address := "9.9.9.9", port := "53", protocol := "do53-udp",
                         tls := none }],
        verboseLogging := false, timeout := 2000 }
      (fun k => if k = 0 then { response := none, duration := 7,
                                err := some "context canceled" }
                else { response := some [0], duration := 1, err := none })
      (fun k => decide (1 ≤ k))
      = [ProbeEvent.report "example.com" "9.9.9.9:53" "do53-udp" 7 false,
         ProbeEvent.sleep500] := by
  decide

/-- Claim C4, amended.  Cancellation is checked before each individual
probe; the cycle returns at the first check that observes it, so when
the cancellation becomes observable from global probe index `m` on,
exactly the probes with index below `m` are issued and reported and no
later probe is issued — but a probe already in flight when cancellation
fires runs to completion and its (failure) result is still reported
before the next check returns. -/
theorem C4_cancellation (m : Nat) (cfg : Config) (oracle : Nat → QueryResult) :
    runCycle cfg oracle (fun i => decide (m ≤ i))
      = specFrom (proberTimeout cfg) oracle 0 ((cycleIters cfg).take m) := by
  unfold runCycle cycleIters
  rw [runDomains_cancelAt]
  simp


/-- Claim C5: the resolver factory succeeds exactly on the six recognized
protocol tags; every other tag — the empty tag included — yields an
error and no constructed resolver. -/
theorem C5_factory_dispatch (s : DNSServer) (t : Int) :
    (newResolver s t).toOption.isSome = validProtocol s.protocol := by
  simp only [newResolver, validProtocol, validProtocolList]
  split_ifs with h1 h2 h3 h4 h5 h6 <;>
    simp_all [List.contains_cons, List.contains_nil, Except.toOption, beq_iff_eq]

/-- Claim C6: construction resolves defaults as specified — an unset
protocol tag yields a resolver whose protocol identifier is do53-udp;
an unset port defaults to 53 (do53 variants), 853 (dot/doq) or 443
(doh/doh3); and with no override the TLS server name defaults to the
server address and is stored in the constructed resolver. -/
theorem C6_construction_defaults (s0 s53 s853 s443 sEnc : DNSServer) (t : Int)
    (h0 : s0.protocol = "")
    (h53p : s53.protocol = "do53-udp" ∨ s53.protocol = "do53-tcp") (h53 : s53.port = "")
    (h853p : s853.protocol = "dot" ∨ s853.protocol = "doq") (h853 : s853.port = "")
    (h443p : s443.protocol = "doh" ∨ s443.protocol = "doh3") (h443 : s443.port = "")
    (hEncTls : sEnc.tls = none ∨ ∃ tc, sEnc.tls = some tc ∧ tc.serverName = "")
    (hEncP : isEncryptedProtocol sEnc.protocol = true) :
    (newResolver (applyDefaultsServer s0) t).toOption.map Resolver.protocol
        = some "do53-udp" ∧
    (applyDefaultsServer s53).port = "53" ∧
    (applyDefaultsServer s853).port = "853" ∧
    (applyDefaultsServer s443).port = "443" ∧
    (extractTLSConfig sEnc).1 = sEnc.address ∧
    (newResolver sEnc t).toOption.bind resolverTLSServerName = some sEnc.address := by
  have hT : (extractTLSConfig sEnc).1 = sEnc.address := by
    rcases hEncTls with h | ⟨tc, h, hsn⟩
    · simp [extractTLSConfig, h]
    · simp [extractTLSConfig, h, hsn]
  refine ⟨?_, ?_, ?_, ?_, hT, ?_⟩
  · simp [applyDefaultsServer, h0, newResolver, newDo53Resolver, Resolver.protocol,
      Except.toOption]
  · rcases h53p with h | h <;>
      simp [applyDefaultsServer, h, h53, defaultPortForProtocol]
  · rcases h853p with h | h <;>
      simp [applyDefaultsServer, h, h853, defaultPortForProtocol]
  · rcases h443p with h | h <;>
      simp [applyDefaultsServer, h, h443, defaultPortForProtocol]
  · simp only [isEncryptedProtocol] at hEncP
    have : sEnc.protocol = "dot" ∨ sEnc.protocol = "doh" ∨ sEnc.protocol = "doh3"
        ∨ sEnc.protocol = "doq" := by
      simpa using hEncP
    rcases this with h | h | h | h <;>
      simp [newResolver, h, newDoTResolver, newDoHResolver, newDoH3Resolver,
        newDoQResolver, resolverTLSServerName, Except.toOption, hT]

/-- Claim C6, witness: the defaults theorem applied to concrete bindings
(empty protocol; unset ports for each protocol family; a dot binding
without a TLS override). -/
theorem C6_witness :
    (newResolver (applyDefaultsServer
        { address := "8.8.8.8", port := "53", protocol := "", tls := none }) 5).toOption.map
      Resolver.protocol = some "do53-udp" :=
  (C6_construction_defaults
    { address := "8.8.8.8", port := "53", protocol := "", tls := none }
    { address := "a", port := "", protocol := "do53-udp", tls := none }
    { address := "b", port := "", protocol := "dot", tls := none }
    { address := "c", port := "", protocol := "doh", tls := none }
    { address := "d", port := "853", protocol := "dot", tls := none }
    5 rfl (Or.inl rfl) rfl (Or.inl rfl) rfl (Or.inl rfl) rfl (Or.inl rfl)
    (by decide)).1


/-- Claim C7, counterexample.  The claim asserts the doh3 request carries
the same packed DNS message body as the doh request.  The doh path
overwrites the message id with 0 before packing (`msg.Id = 0`) while the
doh3 path keeps the random id `SetQuestion` assigned, so whenever that
id is non-zero (here 1) the two packed bodies differ in the id bytes. -/
theorem C7_counterexample :
    (dohBuildRequest (newDoHResolver "9.9.9.9" "443" "dns.quad9.net" false 2000000000)
        "example.com" 1 1).map HttpRequestModel.body ≠
    (doh3BuildRequest (newDoH3Resolver "9.9.9.9" "443" "dns.quad9.net" false 2000000000)
        "example.com" 1 1).map HttpRequestModel.body := by
  decide

/-- Claim C7, amended.  For the same binding, hostname and record type,
the doh and doh3 requests agree on method, URL, Host-header override and
the Content-Type/Accept headers, and their packed bodies agree from the
third byte on; they differ exactly in the leading two id bytes — doh
packs id 0, doh3 packs the random id assigned by `SetQuestion`. -/
theorem C7_doh3_wire (address port serverName : String) (insecure : Bool) (t : Int)
    (hostname : String) (qtype randId : Nat) :
    ((dohBuildRequest (newDoHResolver address port serverName insecure t)
        hostname qtype randId).map fun q => q.method)
      = ((doh3BuildRequest (newDoH3Resolver address port serverName insecure t)
        hostname qtype randId).map fun q => q.method) ∧
    ((dohBuildRequest (newDoHResolver address port serverName insecure t)
        hostname qtype randId).map fun q => q.url)
      = ((doh3BuildRequest (newDoH3Resolver address port serverName insecure t)
        hostname qtype randId).map fun q => q.url) ∧
    ((dohBuildRequest (newDoHResolver address port serverName insecure t)
        hostname qtype randId).map fun q => q.hostHeader)
      = ((doh3BuildRequest (newDoH3Resolver address port serverName insecure t)
        hostname qtype randId).map fun q => q.hostHeader) ∧
    ((dohBuildRequest (newDoHResolver address port serverName insecure t)
        hostname qtype randId).map fun q => q.contentType)
      = ((doh3BuildRequest (newDoH3Resolver address port serverName insecure t)
        hostname qtype randId).map fun q => q.contentType) ∧
    ((dohBuildRequest (newDoHResolver address port serverName insecure t)
        hostname qtype randId).map fun q => q.accept)
      = ((doh3BuildRequest (newDoH3Resolver address port serverName insecure t)
        hostname qtype randId).map fun q => q.accept) ∧
    ((dohBuildRequest (newDoHResolver address port serverName insecure t)
        hostname qtype randId).map fun q => q.body.drop 2)
      = ((doh3BuildRequest (newDoH3Resolver address port serverName insecure t)
        hostname qtype randId).map fun q => q.body.drop 2) ∧
    ((dohBuildRequest (newDoHResolver address port serverName insecure t)
        hostname qtype randId).map fun q => q.body.take 2)
      = ((dohBuildRequest (newDoHResolver address port serverName insecure t)
        hostname qtype randId).map fun _ => encodeU16 0) ∧
    ((doh3BuildRequest (newDoH3Resolver address port serverName insecure t)
        hostname qtype randId).map fun q => q.body.take 2)
      = ((doh3BuildRequest (newDoH3Resolver address port serverName insecure t)
        hostname qtype randId).map fun _ => encodeU16 (randId % 65536)) ∧
    (dohBuildRequest (newDoHResolver address port serverName insecure t)
        hostname qtype randId).isSome
      = (doh3BuildRequest (newDoH3Resolver address port serverName insecure t)
        hostname qtype randId).isSome := by
  simp only [dohBuildRequest, doh3BuildRequest, packMsg, setQuestion]
  rcases hpn : packName (dnsFqdn hostname) with _ | nm
  · simp
  · simp [encodeU16, newDoHResolver, newDoH3Resolver]


/-- Claim C8: for 5 random bytes the generated label is exactly 8
characters, all drawn from the base-32 alphabet A–Z, 2–7. -/
theorem C8_random_label (b : List Nat) (hb : b.length = 5) :
    (generateRandomPrefix 5 (.ok b)).length = 8 ∧
    ∀ c ∈ (generateRandomPrefix 5 (.ok b)).toList,
      c ∈ base32Alphabet ∧
        ((65 ≤ c.toNat ∧ c.toNat ≤ 90) ∨ (50 ≤ c.toNat ∧ c.toNat ≤ 55)) := by
  match b, hb with
  | [b0, b1, b2, b3, b4], _ =>
    constructor
    · simp [generateRandomPrefix, base32NoPadEncode, encBytes, encGroup, String.length,
        digitsBE_length]
    · intro c hc
      simp only [generateRandomPrefix, base32NoPadEncode, String.toList, String.mk,
        List.mem_map] at hc
      obtain ⟨i, hi, hci⟩ := hc
      have hi32 : i < 32 := by
        simp only [List.take, encBytes, encGroup, List.append_nil] at hi
        exact digitsBE_lt _ _ i hi
      have hmem : c ∈ base32Alphabet := hci ▸ base32Alphabet_getD_mem i hi32
      exact ⟨hmem, base32Alphabet_ranges c hmem⟩

/-- Claim C8, witness: the label theorem applied to the zero byte string,
whose label is AAAAAAAA. -/
theorem C8_witness :
    (generateRandomPrefix 5 (.ok [0, 0, 0, 0, 0])).length = 8 ∧
    ∀ c ∈ (generateRandomPrefix 5 (.ok [0, 0, 0, 0, 0])).toList,
      c ∈ base32Alphabet ∧
        ((65 ≤ c.toNat ∧ c.toNat ≤ 90) ∨ (50 ≤ c.toNat ∧ c.toNat ≤ 55)) :=
  C8_random_label [0, 0, 0, 0, 0] rfl

/-- Claim C9: when the cryptographic random source fails, the generator
does not abort: it returns the fixed string "random", which is 6
characters (not 8) and identical across invocations. -/
theorem C9_rand_failure (len : Nat) (e e2 : String) :
    generateRandomPrefix len (.error e) = "random" ∧
    (generateRandomPrefix len (.error e)).length = 6 ∧
    (generateRandomPrefix len (.error e)).length ≠ 8 ∧
    generateRandomPrefix len (.error e2) = generateRandomPrefix len (.error e) :=
  ⟨rfl, rfl, by show ("random".length ≠ 8); decide, rfl⟩

/-- Claim C10: the success flag reported for each probe is exactly the
error field of its Query Result being absent — the trace is unchanged
when responses change as long as errors and durations agree, and every
report in a cycle carries `err.isNone` of its probe outcome as the
success flag; and `RecordQuery` takes exactly one duration observation
and increments exactly one of the success/failure counters. -/
theorem C10_success_flag_metrics
    (cfg : Config) (o1 o2 oracle : Nat → QueryResult) (cancel : Nat → Bool)
    (hagree : ∀ i, (o1 i).err = (o2 i).err ∧ (o1 i).duration = (o2 i).duration)
    (dn sa pr : String) (dur : Int) (succ : Bool)
    (hmem : ProbeEvent.report dn sa pr dur succ ∈ runCycle cfg oracle cancel)
    (st : MetricsState) (domain server protocol : String) (dd : Int) (sflag : Bool) :
    runCycle cfg o1 cancel = runCycle cfg o2 cancel ∧
    (∃ j, dur = (oracle j).duration ∧ succ = (oracle j).err.isNone) ∧
    (recordQuery st domain server protocol dd sflag).durationObs.length
        = st.durationObs.length + 1 ∧
    (recordQuery st domain server protocol dd sflag).successTotal.length
        = st.successTotal.length + (if sflag then 1 else 0) ∧
    (recordQuery st domain server protocol dd sflag).failureTotal.length
        = st.failureTotal.length + (if sflag then 0 else 1) := by
  refine ⟨?_, ?_, ?_, ?_, ?_⟩
  · unfold runCycle
    rw [runDomains_congr _ _ o1 o2 cancel hagree]
  · unfold runCycle at hmem
    rcases runDomains_report_mem cfg.dnsServers (proberTimeout cfg) oracle cancel
        cfg.domains 0 _ hmem with h | ⟨j, dn2, sa2, pr2, h⟩
    · exact absurd h (by simp)
    · simp only [ProbeEvent.report.injEq] at h
      exact ⟨j, h.2.2.2.1, h.2.2.2.2⟩
  · simp [recordQuery]
  · cases sflag <;> simp [recordQuery]
  · cases sflag <;> simp [recordQuery]

/-- Claim C10, witness: the theorem applied to a one-domain one-server
configuration with a successful probe; the two compared oracles differ
only in the decoded response. -/
theorem C10_witness :
    runCycle
      { domains := [{ name := "example.com", probes := 1 }],
        dnsServers := [{ address := "9.9.9.9", port := "53", protocol := "do53-udp",
                         tls := none }],
        verboseLogging := false, timeout := 2000 }
      (fun _ => { response := some [1], duration := 5, err := none })
      (fun _ => false)
      = runCycle
      { domains := [{ name := "example.com", probes := 1 }],
        dnsServers := [{ address := "9.9.9.9", port := "53", protocol := "do53-udp",
                         tls := none }],
        verboseLogging := false, timeout := 2000 }
      (fun _ => { response := none, duration := 5, err := none })
      (fun _ => false) :=
  (C10_success_flag_metrics
    { domains := [{ name := "example.com", probes := 1 }],
      dnsServers := [{ address := "9.9.9.9", port := "53", protocol := "do53-udp",
                       tls := none }],
      verboseLogging := false, timeout := 2000 }
    (fun _ => { response := some [1], duration := 5, err := none })
    (fun _ => { response := none, duration := 5, err := none })
    (fun _ => { response := some [1], duration := 5, err := none })
    (fun _ => false)
    (fun _ => ⟨rfl, rfl⟩)
    "example.com" "9.9.9.9:53" "do53-udp" 5 true
    (by decide)
    { durationObs := [], successTotal := [], failureTotal := [] }
    "example.com" "9.9.9.9:53" "do53-udp" 5 true).1

end DnsPulse
